import Mathlib

/-!
Shallow embedding of `src/src/useSwipePointer/usePointerSwipe.ts`.

The source is a swipe-gesture tracker over DOM pointer events.  We embed the
tracker state (`posStart`, `posEnd`, `isSwiping`, `isPointerDown`), the derived
geometry (`distanceX`, `distanceY`, `isThresholdExceeded`, `direction`), the
input filter `eventIsAllowed`, and the three event handlers registered for
`pointerdown`, `pointermove` and `pointerup`.  Callback invocations
(`onSwipeStart`, `onSwipe`, `onSwipeEnd`) are recorded as a list of `Callback`
values emitted by each handler.  JS numbers appearing here (client coordinates,
threshold) are embedded as `Int`; the `buttons` bitmask as `Nat`; the
`pointerType` string as `String`.  The `??`-chains of the source are embedded
via `Option` (with `Option.none` standing for a nullish JS value).
-/

namespace PointerSwipe

/-- The fields of a DOM `PointerEvent` read by the source: the client
coordinates, the `buttons` bitmask and the `pointerType` string. -/
structure PEvent where
  clientX : Int
  clientY : Int
  buttons : Nat
  pointerType : String
deriving DecidableEq, Repr

/-- The options of `usePointerSwipe` consulted by the handlers: `threshold`
(default 50) and the optional `pointerTypes` allow-list (`Option.none` when the
caller configured no list, matching a nullish `options.pointerTypes`). -/
structure Options where
  threshold : Int := 50
  pointerTypes : Option (List String) := none
deriving DecidableEq, Repr

/-- The mutable tracker state: the `posStart`/`posEnd` ledger and the two
flags.  The extra `listening` field models whether the three listeners
registered through `useEventListener` are still attached (the source file of
`useEventListener` is not part of the repository snapshot; per the spec it
attaches a handler and returns a cleanup that detaches it). -/
structure SwipeState where
  posStartX : Int
  posStartY : Int
  posEndX : Int
  posEndY : Int
  isSwiping : Bool
  isPointerDown : Bool
  listening : Bool
deriving DecidableEq, Repr

/-- The state at tracker construction: both positions `{x: 0, y: 0}`, both
flags `false`, listeners attached. -/
def initialState : SwipeState :=
  { posStartX := 0, posStartY := 0, posEndX := 0, posEndY := 0,
    isSwiping := false, isPointerDown := false, listening := true }

/-- `distanceX = posStart.x - posEnd.x` (line 93 of the source). -/
def distanceX (s : SwipeState) : Int := s.posStartX - s.posEndX

/-- `distanceY = posStart.y - posEnd.y` (line 94 of the source). -/
def distanceY (s : SwipeState) : Int := s.posStartY - s.posEndY

/-- `isThresholdExceeded = max(abs(distanceX), abs(distanceY)) >= threshold`
(line 97 of the source). -/
def isThresholdExceeded (th : Int) (s : SwipeState) : Bool :=
  decide (max |distanceX s| |distanceY s| ≥ th)

/-- The `UseSwipeDirection` union type of the source. -/
inductive Direction where
  | none
  | up
  | down
  | left
  | right
deriving DecidableEq, Repr

/-- The `direction` computed property (lines 101-115 of the source):
`'none'` when the threshold is not exceeded; otherwise horizontal when
`abs(distanceX) > abs(distanceY)` (strictly), else vertical; the sign of the
winning displacement picks the arm. -/
def direction (th : Int) (s : SwipeState) : Direction :=
  if ¬ isThresholdExceeded th s then Direction.none
  else if |distanceX s| > |distanceY s| then
    (if distanceX s > 0 then Direction.left else Direction.right)
  else
    (if distanceY s > 0 then Direction.up else Direction.down)

/-- The full `??`-chain of `eventIsAllowed` (lines 117-121 of the source),
value-level: `options.pointerTypes?.includes(e.pointerType) ??
(isReleasingButton || isPrimaryButton) ?? true`, with `Option.none` standing
for a nullish JS value and `Option.orElse` for `??`. -/
def eventIsAllowedJs (opts : Options) (e : PEvent) : Option Bool :=
  let isReleasingButton := e.buttons == 0
  let isPrimaryButton := e.buttons == 1
  ((opts.pointerTypes.map (fun l => l.contains e.pointerType)).orElse
      (fun _ => some (isReleasingButton || isPrimaryButton))).orElse
    (fun _ => some true)

/-- The same chain with the trailing `?? true` clause removed. -/
def eventIsAllowedNoFallback (opts : Options) (e : PEvent) : Option Bool :=
  let isReleasingButton := e.buttons == 0
  let isPrimaryButton := e.buttons == 1
  (opts.pointerTypes.map (fun l => l.contains e.pointerType)).orElse
    (fun _ => some (isReleasingButton || isPrimaryButton))

/-- The boolean returned by `eventIsAllowed`: the source declares the return
type `boolean`, and the chain never produces a nullish value. -/
def eventIsAllowed (opts : Options) (e : PEvent) : Bool :=
  (eventIsAllowedJs opts e).getD false

/-- The simplified form stated by the spec: when an allow-list is configured
the event is allowed iff its pointer type is in the list; otherwise iff
`buttons` is 0 (release) or 1 (exactly the primary button). -/
def eventIsAllowedSimplified (opts : Options) (e : PEvent) : Bool :=
  match opts.pointerTypes with
  | some l => l.contains e.pointerType
  | none => e.buttons == 0 || e.buttons == 1

/-- A recorded callback invocation. -/
inductive Callback where
  | swipeStart (e : PEvent)
  | swipe (e : PEvent)
  | swipeEnd (e : PEvent) (d : Direction)
deriving DecidableEq, Repr

/-- Recognizes an `onSwipeEnd` invocation. -/
def isSwipeEnd : Callback → Bool
  | Callback.swipeEnd _ _ => true
  | _ => false

/-- Recognizes an `onSwipe` invocation. -/
def isSwipe : Callback → Bool
  | Callback.swipe _ => true
  | _ => false

/-- The `pointerdown` handler (lines 124-135 of the source): when the event is
allowed, set `isPointerDown`, record `posStart = posEnd = (clientX, clientY)`
and invoke `onSwipeStart`.  (`setPointerCapture` is a host-side effect with no
bearing on the tracker state.) -/
def handleDown (opts : Options) (s : SwipeState) (e : PEvent) :
    SwipeState × List Callback :=
  if ¬ eventIsAllowed opts e then (s, [])
  else
    ({ s with isPointerDown := true,
              posStartX := e.clientX, posStartY := e.clientY,
              posEndX := e.clientX, posEndY := e.clientY },
     [Callback.swipeStart e])

/-- The `pointermove` handler (lines 137-149 of the source): when the event is
allowed and a pointer is down, update `posEnd`; set `isSwiping` if not yet set
and the threshold is now exceeded; invoke `onSwipe` when `isSwiping` holds
after that. -/
def handleMove (opts : Options) (s : SwipeState) (e : PEvent) :
    SwipeState × List Callback :=
  if ¬ eventIsAllowed opts e then (s, [])
  else if ¬ s.isPointerDown then (s, [])
  else
    let s1 := { s with posEndX := e.clientX, posEndY := e.clientY }
    let s2 := if !s1.isSwiping && isThresholdExceeded opts.threshold s1
              then { s1 with isSwiping := true } else s1
    (s2, if s2.isSwiping then [Callback.swipe e] else [])

/-- The `pointerup` handler (lines 151-159 of the source): when the event is
allowed, invoke `onSwipeEnd` with the current `direction` if `isSwiping`, then
clear both flags. -/
def handleUp (opts : Options) (s : SwipeState) (e : PEvent) :
    SwipeState × List Callback :=
  if ¬ eventIsAllowed opts e then (s, [])
  else
    ({ s with isPointerDown := false, isSwiping := false },
     if s.isSwiping then [Callback.swipeEnd e (direction opts.threshold s)]
     else [])

/-- A pointer event together with its DOM event type. -/
inductive PointerInput where
  | down (e : PEvent)
  | move (e : PEvent)
  | up (e : PEvent)
deriving DecidableEq, Repr

/-- Delivery of one pointer event to the tracker.  Modelled from the spec for
the missing `useEventListener.ts`: a handler runs only while its listener is
attached; `dispatch` therefore consults the `listening` flag and otherwise
runs the handler matching the event type. -/
def dispatch (opts : Options) (s : SwipeState) (ev : PointerInput) :
    SwipeState × List Callback :=
  if ¬ s.listening then (s, [])
  else
    match ev with
    | PointerInput.down e => handleDown opts s e
    | PointerInput.move e => handleMove opts s e
    | PointerInput.up e => handleUp opts s e

/-- The `stop` operation (line 200 of the source): it calls each cleanup
returned by `useEventListener`, and nothing else.  Modelled from the spec for
the missing `useEventListener.ts`: each cleanup detaches its listener, so
`stop` clears the `listening` flag and touches no other field. -/
def stop (s : SwipeState) : SwipeState := { s with listening := false }

/-- Delivery of a sequence of pointer events, accumulating the emitted
callback invocations in order. -/
def run (opts : Options) : SwipeState → List PointerInput →
    SwipeState × List Callback
  | s, [] => (s, [])
  | s, ev :: evs =>
    let p := dispatch opts s ev
    let q := run opts p.fst evs
    (q.fst, p.snd ++ q.snd)

/-- Holds when, after each event of the list is delivered in turn, the
resulting state never has its threshold exceeded (the gesture stays below the
threshold throughout). -/
def belowThroughout (opts : Options) : SwipeState → List PointerInput → Bool
  | _, [] => true
  | s, ev :: evs =>
    let s1 := (dispatch opts s ev).fst
    !isThresholdExceeded opts.threshold s1 && belowThroughout opts s1 evs

/-! ## Helper lemmas shared by the claims -/

/-- Unfolding of the threshold test into an inequality on `Int`. -/
lemma isThresholdExceeded_iff (th : Int) (s : SwipeState) :
    isThresholdExceeded th s = true ↔ th ≤ max |distanceX s| |distanceY s| := by
  simp [isThresholdExceeded]

/-- The threshold test reads only the position ledger, not the flags. -/
lemma isThresholdExceeded_set_isSwiping (th : Int) (s : SwipeState) (b : Bool) :
    isThresholdExceeded th { s with isSwiping := b } = isThresholdExceeded th s := by
  simp [isThresholdExceeded, distanceX, distanceY]

/-- The direction reads only the position ledger, not the flags. -/
lemma direction_set_flags (th : Int) (s : SwipeState) (b c : Bool) :
    direction th { s with isSwiping := b, isPointerDown := c } = direction th s := by
  simp [direction, isThresholdExceeded, distanceX, distanceY]

/-- When the threshold is not met, the direction is `none`. -/
lemma direction_of_not_exceeded (th : Int) (s : SwipeState)
    (h : isThresholdExceeded th s = false) : direction th s = Direction.none := by
  simp [direction, h]

/-! ## C1: direction as a function of the ledger and threshold -/

/-- C1: the derived direction is a pure function of the ledger and threshold:
`direction = none` iff `max(|distanceX|, |distanceY|) < threshold` (so a
displacement exactly at the threshold yields a non-`none` direction); when the
threshold is met and `|distanceX| > |distanceY|` strictly, the direction is
`left` if `distanceX > 0` and `right` otherwise; and in particular
`distanceX = 80`, `distanceY = 10`, `threshold = 50` gives `left`. -/
theorem direction_characterization (th : Int) (s : SwipeState) :
    (direction th s = Direction.none ↔ max |distanceX s| |distanceY s| < th) ∧
    (th ≤ max |distanceX s| |distanceY s| → |distanceY s| < |distanceX s| →
      direction th s = (if 0 < distanceX s then Direction.left else Direction.right)) ∧
    direction 50
      { posStartX := 80, posStartY := 10, posEndX := 0, posEndY := 0,
        isSwiping := false, isPointerDown := false, listening := true }
      = Direction.left := by
  refine ⟨⟨?_, ?_⟩, ?_, by decide⟩
  · intro hnone
    by_contra hcon
    push_neg at hcon
    have hex : isThresholdExceeded th s = true :=
      (isThresholdExceeded_iff th s).mpr hcon
    simp only [direction, hex, not_true_eq_false, if_false] at hnone
    split_ifs at hnone
  · intro hlt
    have hex : isThresholdExceeded th s = false := by
      simp only [isThresholdExceeded, decide_eq_false_iff_not, not_le]
      exact hlt
    exact direction_of_not_exceeded th s hex
  · intro hth hxy
    have hex : isThresholdExceeded th s = true := (isThresholdExceeded_iff th s).mpr hth
    simp [direction, hex, hxy]

/-- Witness for C1 at `distanceX = 80`, `distanceY = 10`, `threshold = 50`. -/
theorem direction_characterization_witness :
    (50 : Int) ≤ max
      |distanceX { posStartX := 80, posStartY := 10, posEndX := 0, posEndY := 0,
                   isSwiping := false, isPointerDown := false, listening := true }|
      |distanceY { posStartX := 80, posStartY := 10, posEndX := 0, posEndY := 0,
                   isSwiping := false, isPointerDown := false, listening := true }| ∧
    direction 50
      { posStartX := 80, posStartY := 10, posEndX := 0, posEndY := 0,
        isSwiping := false, isPointerDown := false, listening := true }
      = Direction.left :=
  ⟨by decide,
   (direction_characterization 50
      { posStartX := 80, posStartY := 10, posEndX := 0, posEndY := 0,
        isSwiping := false, isPointerDown := false, listening := true }).2.1
     (by decide) (by decide)⟩

/-! ## C2: the tie case -/

/-- C2 counterexample: at `distanceX = 60`, `distanceY = 60`, `threshold = 50`
the code resolves the tie to the vertical axis: the direction is `up`, not
`left` or `right` as the claim states. -/
theorem direction_tie_counterexample :
    direction 50
      { posStartX := 60, posStartY := 60, posEndX := 0, posEndY := 0,
        isSwiping := false, isPointerDown := false, listening := true }
      = Direction.up ∧
    ¬ (direction 50
        { posStartX := 60, posStartY := 60, posEndX := 0, posEndY := 0,
          isSwiping := false, isPointerDown := false, listening := true }
        = Direction.left ∨
       direction 50
        { posStartX := 60, posStartY := 60, posEndX := 0, posEndY := 0,
          isSwiping := false, isPointerDown := false, listening := true }
        = Direction.right) := by
  decide

/-- C2 amended: for every ledger state with `|distanceX| = |distanceY|` and
that magnitude at or above the threshold, the tie is broken in favor of the
vertical axis: the direction is `up` when `distanceY > 0` and `down`
otherwise (e.g. `distanceX = 60`, `distanceY = 60`, `threshold = 50` gives
`up`). -/
theorem direction_tie_vertical (th : Int) (s : SwipeState)
    (heq : |distanceX s| = |distanceY s|)
    (hth : th ≤ max |distanceX s| |distanceY s|) :
    direction th s = (if 0 < distanceY s then Direction.up else Direction.down) := by
  have hex : isThresholdExceeded th s = true := (isThresholdExceeded_iff th s).mpr hth
  simp [direction, hex, heq]

/-- Witness for the amended C2 at `distanceX = 60`, `distanceY = 60`,
`threshold = 50`. -/
theorem direction_tie_vertical_witness :
    |distanceX { posStartX := 60, posStartY := 60, posEndX := 0, posEndY := 0,
                 isSwiping := false, isPointerDown := false, listening := true }|
      = |distanceY { posStartX := 60, posStartY := 60, posEndX := 0, posEndY := 0,
                     isSwiping := false, isPointerDown := false, listening := true }| ∧
    direction 50
      { posStartX := 60, posStartY := 60, posEndX := 0, posEndY := 0,
        isSwiping := false, isPointerDown := false, listening := true }
      = Direction.up := by
  refine ⟨by decide, ?_⟩
  have h := direction_tie_vertical 50
    { posStartX := 60, posStartY := 60, posEndX := 0, posEndY := 0,
      isSwiping := false, isPointerDown := false, listening := true }
    (by decide) (by decide)
  simpa using h

/-! ## C5: the input filter -/

/-- C5: `eventIsAllowed` is a pure predicate equivalent to the simplified
form: with an allow-list configured the event is allowed iff its pointer type
is in the list (short-circuiting the button checks); otherwise iff `buttons`
is 0 or 1; and the trailing always-true fallback clause never influences the
result (removing it leaves the chain's value unchanged, since the chain is
never nullish at that point). -/
theorem eventIsAllowed_refines (opts : Options) (e : PEvent) :
    eventIsAllowed opts e = eventIsAllowedSimplified opts e ∧
    eventIsAllowedJs opts e = eventIsAllowedNoFallback opts e ∧
    eventIsAllowedJs opts e = some (eventIsAllowedSimplified opts e) := by
  rcases opts with ⟨th, pts⟩
  cases pts <;>
    simp [eventIsAllowed, eventIsAllowedJs, eventIsAllowedNoFallback,
      eventIsAllowedSimplified, Option.orElse]

/-! ## C10: the pointerdown handler ignores the current state -/

/-- C10: every allowed pointer-down — in any state, including mid-gesture —
sets `isPointerDown`, sets both `posStart` and `posEnd` to the event
coordinates (zeroing the displacement), invokes `onSwipeStart`, and leaves
`isSwiping` unchanged. -/
theorem pointerdown_unconditional (opts : Options) (s : SwipeState) (e : PEvent)
    (hA : eventIsAllowed opts e = true) :
    (handleDown opts s e).fst =
      { s with isPointerDown := true,
               posStartX := e.clientX, posStartY := e.clientY,
               posEndX := e.clientX, posEndY := e.clientY } ∧
    (handleDown opts s e).snd = [Callback.swipeStart e] ∧
    (handleDown opts s e).fst.isSwiping = s.isSwiping ∧
    distanceX (handleDown opts s e).fst = 0 ∧
    distanceY (handleDown opts s e).fst = 0 := by
  simp [handleDown, hA, distanceX, distanceY]

/-- Witness for C10: a primary-button pointer-down arriving while a swipe is
already in progress fires `onSwipeStart` again and leaves `isSwiping` true. -/
theorem pointerdown_unconditional_witness :
    eventIsAllowed { threshold := 50, pointerTypes := none }
      { clientX := 5, clientY := 6, buttons := 1, pointerType := "mouse" } = true ∧
    (handleDown { threshold := 50, pointerTypes := none }
      { posStartX := 0, posStartY := 0, posEndX := 70, posEndY := 0,
        isSwiping := true, isPointerDown := true, listening := true }
      { clientX := 5, clientY := 6, buttons := 1, pointerType := "mouse" }).snd
      = [Callback.swipeStart
          { clientX := 5, clientY := 6, buttons := 1, pointerType := "mouse" }] ∧
    (handleDown { threshold := 50, pointerTypes := none }
      { posStartX := 0, posStartY := 0, posEndX := 70, posEndY := 0,
        isSwiping := true, isPointerDown := true, listening := true }
      { clientX := 5, clientY := 6, buttons := 1, pointerType := "mouse" }).fst.isSwiping
      = true := by
  have h := pointerdown_unconditional { threshold := 50, pointerTypes := none }
    { posStartX := 0, posStartY := 0, posEndX := 70, posEndY := 0,
      isSwiping := true, isPointerDown := true, listening := true }
    { clientX := 5, clientY := 6, buttons := 1, pointerType := "mouse" }
    (by decide)
  exact ⟨by decide, h.2.1, by rw [h.2.2.1]⟩

/-! ## C9: hysteresis of the swiping flag -/

/-- C9: movement never clears `isSwiping`; and when an allowed pointer-up
arrives with `isSwiping` still set but the displacement back below the
threshold, `onSwipeEnd` fires with direction `none`. -/
theorem swiping_hysteresis :
    (∀ (opts : Options) (s : SwipeState) (e : PEvent),
        s.isSwiping = true → (handleMove opts s e).fst.isSwiping = true) ∧
    (∀ (opts : Options) (s : SwipeState) (e : PEvent),
        eventIsAllowed opts e = true → s.isSwiping = true →
        isThresholdExceeded opts.threshold s = false →
        (handleUp opts s e).snd = [Callback.swipeEnd e Direction.none]) := by
  constructor
  · intro opts s e hs
    by_cases hA : eventIsAllowed opts e <;>
      by_cases hP : s.isPointerDown <;>
        simp [handleMove, hA, hP, hs]
  · intro opts s e hA hs hex
    have hdir : direction opts.threshold s = Direction.none :=
      direction_of_not_exceeded _ _ hex
    simp [handleUp, hA, hs, hdir]

/-- Witness for C9: a pointer-up at displacement 10 (below threshold 50) with
`isSwiping` still set fires `onSwipeEnd` with direction `none`. -/
theorem swiping_hysteresis_witness :
    eventIsAllowed { threshold := 50, pointerTypes := none }
      { clientX := 10, clientY := 0, buttons := 0, pointerType := "mouse" } = true ∧
    isThresholdExceeded 50
      { posStartX := 0, posStartY := 0, posEndX := 10, posEndY := 0,
        isSwiping := true, isPointerDown := true, listening := true } = false ∧
    (handleUp { threshold := 50, pointerTypes := none }
      { posStartX := 0, posStartY := 0, posEndX := 10, posEndY := 0,
        isSwiping := true, isPointerDown := true, listening := true }
      { clientX := 10, clientY := 0, buttons := 0, pointerType := "mouse" }).snd
      = [Callback.swipeEnd
          { clientX := 10, clientY := 0, buttons := 0, pointerType := "mouse" }
          Direction.none] :=
  ⟨by decide, by decide,
   swiping_hysteresis.2 { threshold := 50, pointerTypes := none }
     { posStartX := 0, posStartY := 0, posEndX := 10, posEndY := 0,
       isSwiping := true, isPointerDown := true, listening := true }
     { clientX := 10, clientY := 0, buttons := 0, pointerType := "mouse" }
     (by decide) rfl (by decide)⟩

/-! ## C6: no-op events -/

/-- C6: disallowed events are complete no-ops for every handler in every
state; an allowed pointer-move with no pointer down is a no-op; and an
allowed pointer-up in the idle state (no pointer down, not swiping) leaves
the state unchanged and invokes no callback. -/
theorem disallowed_and_idle_noop :
    (∀ (opts : Options) (s : SwipeState) (e : PEvent),
        eventIsAllowed opts e = false →
        handleDown opts s e = (s, []) ∧ handleMove opts s e = (s, []) ∧
        handleUp opts s e = (s, [])) ∧
    (∀ (opts : Options) (s : SwipeState) (e : PEvent),
        s.isPointerDown = false → handleMove opts s e = (s, [])) ∧
    (∀ (opts : Options) (s : SwipeState) (e : PEvent),
        s.isPointerDown = false → s.isSwiping = false →
        handleUp opts s e = (s, [])) := by
  refine ⟨?_, ?_, ?_⟩
  · intro opts s e hA
    simp [handleDown, handleMove, handleUp, hA]
  · intro opts s e hP
    by_cases hA : eventIsAllowed opts e <;> simp [handleMove, hA, hP]
  · intro opts s e hP hs
    rcases s with ⟨px, py, qx, qy, sw, pd, li⟩
    simp only [SwipeState.isPointerDown] at hP
    simp only [SwipeState.isSwiping] at hs
    subst hP
    subst hs
    by_cases hA : eventIsAllowed opts e <;> simp [handleUp, hA]

/-- Witness for C6: a secondary-button event is rejected and is a no-op on
the pointer-down handler; an allowed pointer-up in the idle state is a
no-op. -/
theorem disallowed_and_idle_noop_witness :
    eventIsAllowed { threshold := 50, pointerTypes := none }
      { clientX := 1, clientY := 2, buttons := 2, pointerType := "mouse" } = false ∧
    handleDown { threshold := 50, pointerTypes := none } initialState
      { clientX := 1, clientY := 2, buttons := 2, pointerType := "mouse" }
      = (initialState, []) ∧
    handleUp { threshold := 50, pointerTypes := none } initialState
      { clientX := 1, clientY := 2, buttons := 0, pointerType := "mouse" }
      = (initialState, []) :=
  ⟨by decide,
   (disallowed_and_idle_noop.1 { threshold := 50, pointerTypes := none }
      initialState
      { clientX := 1, clientY := 2, buttons := 2, pointerType := "mouse" }
      (by decide)).1,
   disallowed_and_idle_noop.2.2 { threshold := 50, pointerTypes := none }
     initialState
     { clientX := 1, clientY := 2, buttons := 0, pointerType := "mouse" }
     rfl rfl⟩

/-! ## Helper lemmas on the handlers -/

/-- Canonical form of the pointerdown handler on an allowed event. -/
lemma handleDown_eq (opts : Options) (s : SwipeState) (e : PEvent)
    (hA : eventIsAllowed opts e = true) :
    handleDown opts s e =
      ({ s with isPointerDown := true,
                posStartX := e.clientX, posStartY := e.clientY,
                posEndX := e.clientX, posEndY := e.clientY },
       [Callback.swipeStart e]) := by
  simp [handleDown, hA]

/-- Canonical form of the pointerup handler on an allowed event. -/
lemma handleUp_eq (opts : Options) (s : SwipeState) (e : PEvent)
    (hA : eventIsAllowed opts e = true) :
    handleUp opts s e =
      ({ s with isPointerDown := false, isSwiping := false },
       if s.isSwiping then [Callback.swipeEnd e (direction opts.threshold s)]
       else []) := by
  simp [handleUp, hA]

/-- Canonical form of the pointermove handler on an allowed event with a
pointer down: `posEnd` is set to the event coordinates and `isSwiping`
becomes the disjunction of its old value with the threshold test at the
updated ledger. -/
lemma handleMove_fst (opts : Options) (s : SwipeState) (e : PEvent)
    (hA : eventIsAllowed opts e = true) (hP : s.isPointerDown = true) :
    (handleMove opts s e).fst =
      { s with posEndX := e.clientX, posEndY := e.clientY,
               isSwiping := s.isSwiping ||
                 isThresholdExceeded opts.threshold
                   { s with posEndX := e.clientX, posEndY := e.clientY } } := by
  rcases s with ⟨px, py, qx, qy, sw, pd, li⟩
  simp only [SwipeState.isPointerDown] at hP
  subst hP
  cases sw
  · cases hex : isThresholdExceeded opts.threshold
      { posStartX := px, posStartY := py, posEndX := e.clientX, posEndY := e.clientY,
        isSwiping := false, isPointerDown := true, listening := li } <;>
      simp [handleMove, hA, hex]
  · simp [handleMove, hA]

/-- The callbacks of the pointermove handler: `onSwipe` exactly when the
post-state is swiping. -/
lemma handleMove_snd (opts : Options) (s : SwipeState) (e : PEvent)
    (hA : eventIsAllowed opts e = true) (hP : s.isPointerDown = true) :
    (handleMove opts s e).snd =
      (if (handleMove opts s e).fst.isSwiping then [Callback.swipe e] else []) := by
  simp only [handleMove, hA, not_true_eq_false, if_false, hP]

/-- Any callback emitted by the pointerdown handler is `onSwipeStart`. -/
lemma handleDown_snd_mem (opts : Options) (s : SwipeState) (e : PEvent)
    (c : Callback) (hc : c ∈ (handleDown opts s e).snd) :
    c = Callback.swipeStart e := by
  unfold handleDown at hc
  split_ifs at hc <;> simp_all

/-- Any callback emitted by the pointermove handler is `onSwipe`. -/
lemma handleMove_snd_mem (opts : Options) (s : SwipeState) (e : PEvent)
    (c : Callback) (hc : c ∈ (handleMove opts s e).snd) :
    c = Callback.swipe e := by
  unfold handleMove at hc
  split_ifs at hc <;> simp_all

/-- Any callback emitted by the pointerup handler is `onSwipeEnd` with the
direction recomputed from the pre-state's ledger. -/
lemma handleUp_snd_mem (opts : Options) (s : SwipeState) (e : PEvent)
    (c : Callback) (hc : c ∈ (handleUp opts s e).snd) :
    c = Callback.swipeEnd e (direction opts.threshold s) := by
  unfold handleUp at hc
  split_ifs at hc <;> simp_all

/-- A detached tracker ignores every event. -/
lemma dispatch_not_listening (opts : Options) (s : SwipeState) (ev : PointerInput)
    (h : s.listening = false) : dispatch opts s ev = (s, []) := by
  simp [dispatch, h]

/-- An attached tracker dispatches a pointerdown to its handler. -/
lemma dispatch_down (opts : Options) (s : SwipeState) (e : PEvent)
    (h : s.listening = true) :
    dispatch opts s (PointerInput.down e) = handleDown opts s e := by
  simp [dispatch, h]

/-- An attached tracker dispatches a pointermove to its handler. -/
lemma dispatch_move (opts : Options) (s : SwipeState) (e : PEvent)
    (h : s.listening = true) :
    dispatch opts s (PointerInput.move e) = handleMove opts s e := by
  simp [dispatch, h]

/-- An attached tracker dispatches a pointerup to its handler. -/
lemma dispatch_up (opts : Options) (s : SwipeState) (e : PEvent)
    (h : s.listening = true) :
    dispatch opts s (PointerInput.up e) = handleUp opts s e := by
  simp [dispatch, h]

/-- One unfolding step of `run`. -/
lemma run_cons (opts : Options) (s : SwipeState) (ev : PointerInput)
    (evs : List PointerInput) :
    run opts s (ev :: evs) =
      ((run opts (dispatch opts s ev).fst evs).fst,
       (dispatch opts s ev).snd ++ (run opts (dispatch opts s ev).fst evs).snd) := by
  simp [run]

/-- `run` over a concatenation splits into two runs. -/
lemma run_append (opts : Options) (as bs : List PointerInput) (s : SwipeState) :
    run opts s (as ++ bs) =
      ((run opts (run opts s as).fst bs).fst,
       (run opts s as).snd ++ (run opts (run opts s as).fst bs).snd) := by
  induction as generalizing s with
  | nil => simp [run]
  | cons a as ih => simp [run, ih, List.append_assoc]

/-! ## C8: stop does not reset the state -/

/-- C8 counterexample: with a swipe in progress, `isSwiping` is still `true`
immediately after `stop()` — the state is not returned to its defaults. -/
theorem stop_reset_counterexample :
    (stop { posStartX := 0, posStartY := 0, posEndX := 70, posEndY := 0,
            isSwiping := true, isPointerDown := true, listening := true }).isSwiping
      = true := by
  decide

/-- C8 amended: `stop()` detaches the listeners and nothing more: every field
of the tracker state other than the modelled `listening` flag — the ledger and
both flags, `isSwiping` included — is left exactly as it was. -/
theorem stop_preserves_state (s : SwipeState) :
    (stop s).posStartX = s.posStartX ∧ (stop s).posStartY = s.posStartY ∧
    (stop s).posEndX = s.posEndX ∧ (stop s).posEndY = s.posEndY ∧
    (stop s).isSwiping = s.isSwiping ∧
    (stop s).isPointerDown = s.isPointerDown ∧
    (stop s).listening = false := by
  simp [stop]

/-! ## C7: no callbacks after stop -/

/-- C7: after `stop()` no callback ever fires again: delivering any sequence
of pointer events to the stopped tracker emits nothing and leaves the state
untouched (in particular the gesture in progress, if any, is abandoned with
no `onSwipeEnd`). -/
theorem stop_silences (opts : Options) (s : SwipeState)
    (evs : List PointerInput) :
    (run opts (stop s) evs).snd = [] ∧ (run opts (stop s) evs).fst = stop s := by
  have key : ∀ (l : List PointerInput) (t : SwipeState), t.listening = false →
      run opts t l = (t, []) := by
    intro l
    induction l with
    | nil => intro t ht; simp [run]
    | cons ev l ih =>
      intro t ht
      simp [run, dispatch_not_listening opts t ev ht, ih t ht]
  have h := key evs (stop s) (by simp [stop])
  simp [h]

/-! ## C3: the pointerup handler and below-threshold gestures -/

/-- Every post-state along a below-threshold run of a non-swiping tracker is
still non-swiping, and no `onSwipeEnd` is emitted on the way. -/
lemma dispatch_below_preserves (opts : Options) (s : SwipeState)
    (ev : PointerInput) (hs : s.isSwiping = false)
    (hex : isThresholdExceeded opts.threshold (dispatch opts s ev).fst = false) :
    (dispatch opts s ev).fst.isSwiping = false ∧
    (∀ c ∈ (dispatch opts s ev).snd, isSwipeEnd c = false) := by
  by_cases hL : s.listening = true
  · cases ev with
    | down e =>
      rw [dispatch_down opts s e hL] at hex ⊢
      by_cases hA : eventIsAllowed opts e = true
      · rw [handleDown_eq opts s e hA]
        exact ⟨hs, by simp [isSwipeEnd]⟩
      · simp only [Bool.not_eq_true] at hA
        simp [handleDown, hA, hs]
    | move e =>
      rw [dispatch_move opts s e hL] at hex ⊢
      by_cases hA : eventIsAllowed opts e = true
      · by_cases hP : s.isPointerDown = true
        · rcases s with ⟨px, py, qx, qy, sw, pd, li⟩
          simp only [SwipeState.isSwiping] at hs
          simp only [SwipeState.isPointerDown] at hP
          subst hs
          subst hP
          cases hex2 : isThresholdExceeded opts.threshold
            { posStartX := px, posStartY := py,
              posEndX := e.clientX, posEndY := e.clientY,
              isSwiping := false, isPointerDown := true, listening := li } with
          | false =>
            constructor
            · simp [handleMove, hA, hex2]
            · intro c hc
              have := handleMove_snd_mem _ _ _ _ hc
              subst this
              rfl
          | true =>
            exfalso
            simp only [handleMove, hA, not_true_eq_false, if_false,
              Bool.not_false, hex2, Bool.and_self, if_true] at hex
            simp only [isThresholdExceeded, distanceX, distanceY,
              decide_eq_false_iff_not, decide_eq_true_eq, not_le] at hex hex2
            exact absurd hex2 (not_le.mpr hex)
        · simp only [Bool.not_eq_true] at hP
          constructor
          · simp [handleMove, hA, hP, hs]
          · intro c hc
            have := handleMove_snd_mem _ _ _ _ hc
            subst this
            rfl
      · simp only [Bool.not_eq_true] at hA
        constructor
        · simp [handleMove, hA, hs]
        · intro c hc
          have := handleMove_snd_mem _ _ _ _ hc
          subst this
          rfl
    | up e =>
      rw [dispatch_up opts s e hL] at hex ⊢
      by_cases hA : eventIsAllowed opts e = true
      · rw [handleUp_eq opts s e hA]
        exact ⟨rfl, by simp [hs]⟩
      · simp only [Bool.not_eq_true] at hA
        simp [handleUp, hA, hs]
  · simp only [Bool.not_eq_true] at hL
    rw [dispatch_not_listening opts s ev hL] at hex ⊢
    exact ⟨hs, by simp⟩

/-- C3: for every allowed pointer-up, `onSwipeEnd` is invoked iff `isSwiping`
was set at that moment, its direction argument is recomputed from the current
ledger, and both flags are cleared afterwards; and a gesture whose
displacement stays below the threshold throughout never triggers
`onSwipeEnd`. -/
theorem pointerup_end_spec :
    (∀ (opts : Options) (s : SwipeState) (e : PEvent),
        eventIsAllowed opts e = true →
        (((handleUp opts s e).snd ≠ []) ↔ s.isSwiping = true) ∧
        (handleUp opts s e).snd
          = (if s.isSwiping then
               [Callback.swipeEnd e (direction opts.threshold s)] else []) ∧
        (handleUp opts s e).fst.isSwiping = false ∧
        (handleUp opts s e).fst.isPointerDown = false) ∧
    (∀ (opts : Options) (s : SwipeState) (evs : List PointerInput),
        s.isSwiping = false → belowThroughout opts s evs = true →
        ∀ c ∈ (run opts s evs).snd, isSwipeEnd c = false) := by
  constructor
  · intro opts s e hA
    rw [handleUp_eq opts s e hA]
    refine ⟨?_, rfl, rfl, rfl⟩
    cases hs : s.isSwiping <;> simp [hs]
  · intro opts s evs
    induction evs generalizing s with
    | nil =>
      intro hs _ c hc
      simp [run] at hc
    | cons ev evs ih =>
      intro hs hb c hc
      have hb2 : isThresholdExceeded opts.threshold (dispatch opts s ev).fst = false ∧
          belowThroughout opts (dispatch opts s ev).fst evs = true := by
        have := hb
        simp only [belowThroughout, Bool.and_eq_true, Bool.not_eq_true'] at this
        exact this
      obtain ⟨hs1, hcb⟩ := dispatch_below_preserves opts s ev hs hb2.1
      rw [run_cons] at hc
      simp only [List.mem_append] at hc
      cases hc with
      | inl h => exact hcb c h
      | inr h => exact ih (dispatch opts s ev).fst hs1 hb2.2 c h

/-- Witness for C3: an allowed pointer-up while swiping fires `onSwipeEnd`
once with the recomputed direction and clears both flags; and the two-event
below-threshold gesture down-at-(0,0), move-to-(10,0) emits no `onSwipeEnd`. -/
theorem pointerup_end_spec_witness :
    (handleUp { threshold := 50, pointerTypes := none }
      { posStartX := 0, posStartY := 0, posEndX := 70, posEndY := 0,
        isSwiping := true, isPointerDown := true, listening := true }
      { clientX := 70, clientY := 0, buttons := 0, pointerType := "mouse" }).fst.isSwiping
      = false ∧
    (∀ c ∈ (run { threshold := 50, pointerTypes := none } initialState
        [PointerInput.down
          { clientX := 0, clientY := 0, buttons := 1, pointerType := "mouse" },
         PointerInput.move
          { clientX := 10, clientY := 0, buttons := 1, pointerType := "mouse" },
         PointerInput.up
          { clientX := 10, clientY := 0, buttons := 0, pointerType := "mouse" }]).snd,
        isSwipeEnd c = false) :=
  ⟨(pointerup_end_spec.1 { threshold := 50, pointerTypes := none }
      { posStartX := 0, posStartY := 0, posEndX := 70, posEndY := 0,
        isSwiping := true, isPointerDown := true, listening := true }
      { clientX := 70, clientY := 0, buttons := 0, pointerType := "mouse" }
      (by decide)).2.2.1,
   pointerup_end_spec.2 { threshold := 50, pointerTypes := none } initialState
     [PointerInput.down
       { clientX := 0, clientY := 0, buttons := 1, pointerType := "mouse" },
      PointerInput.move
       { clientX := 10, clientY := 0, buttons := 1, pointerType := "mouse" },
      PointerInput.up
       { clientX := 10, clientY := 0, buttons := 0, pointerType := "mouse" }]
     rfl (by decide)⟩

/-! ## C4: the pointermove handler and the gesture callback pattern -/

/-- The pointerdown handler's callback on an allowed event. -/
lemma handleDown_snd (opts : Options) (s : SwipeState) (e : PEvent)
    (hA : eventIsAllowed opts e = true) :
    (handleDown opts s e).snd = [Callback.swipeStart e] := by
  rw [handleDown_eq opts s e hA]

/-- Running a list of allowed pointer-moves from an attached, pointer-down
state keeps the tracker attached and the pointer down, emits only `onSwipe`
invocations, never clears `isSwiping`, and emits at least one invocation
whenever `isSwiping` flips from false to true along the way. -/
lemma run_moves_spec (opts : Options) (moves : List PEvent) :
    ∀ s : SwipeState, s.listening = true → s.isPointerDown = true →
      (∀ e ∈ moves, eventIsAllowed opts e = true) →
      (run opts s (List.map PointerInput.move moves)).fst.listening = true ∧
      (run opts s (List.map PointerInput.move moves)).fst.isPointerDown = true ∧
      (∀ c ∈ (run opts s (List.map PointerInput.move moves)).snd,
        isSwipe c = true) ∧
      (s.isSwiping = true →
        (run opts s (List.map PointerInput.move moves)).fst.isSwiping = true) ∧
      (s.isSwiping = false →
        (run opts s (List.map PointerInput.move moves)).fst.isSwiping = true →
        (run opts s (List.map PointerInput.move moves)).snd ≠ []) := by
  induction moves with
  | nil =>
    intro s hL hP _
    simp only [List.map_nil]
    refine ⟨?_, ?_, ?_, ?_, ?_⟩
    · simpa [run] using hL
    · simpa [run] using hP
    · intro c hc
      simp [run] at hc
    · intro h
      simpa [run] using h
    · intro h1 h2
      simp [run] at h2
      exact absurd h2 (by simp [h1])
  | cons e moves ih =>
    intro s hL hP hAll
    have hAe : eventIsAllowed opts e = true := hAll e (List.mem_cons_self e moves)
    have hAll2 : ∀ x ∈ moves, eventIsAllowed opts x = true :=
      fun x hx => hAll x (List.mem_cons_of_mem e hx)
    simp only [List.map_cons]
    rw [run_cons, dispatch_move opts s e hL]
    have hfst := handleMove_fst opts s e hAe hP
    have hL1 : (handleMove opts s e).fst.listening = true := by
      rw [hfst]; exact hL
    have hP1 : (handleMove opts s e).fst.isPointerDown = true := by
      rw [hfst]; exact hP
    have IH := ih (handleMove opts s e).fst hL1 hP1 hAll2
    refine ⟨IH.1, IH.2.1, ?_, ?_, ?_⟩
    · intro c hc
      simp only [List.mem_append] at hc
      cases hc with
      | inl h =>
        have := handleMove_snd_mem _ _ _ _ h
        subst this
        rfl
      | inr h => exact IH.2.2.1 c h
    · intro hsw
      apply IH.2.2.2.1
      rw [hfst]
      simp [hsw]
    · intro hsw hfin
      cases h1 : (handleMove opts s e).fst.isSwiping with
      | true =>
        have hsnd := handleMove_snd opts s e hAe hP
        rw [h1] at hsnd
        simp only [if_true] at hsnd
        simp [hsnd]
      | false =>
        have htail := IH.2.2.2.2 h1 hfin
        intro hcon
        rw [List.append_eq_nil] at hcon
        exact htail hcon.2

/-- C4: for every allowed pointer-move while a pointer is down, `posEnd`
becomes the event coordinates; `isSwiping` after the move is its old value
or-ed with the threshold test at the updated ledger (so it is set exactly at
the first move meeting the threshold and never re-set while already true);
`onSwipe` fires exactly when `isSwiping` holds after the move, including the
move that first meets the threshold; and a full gesture whose moves set
`isSwiping` emits exactly one `onSwipeStart`, then one or more `onSwipe`,
then exactly one `onSwipeEnd`, in that order. -/
theorem pointermove_gesture_spec :
    (∀ (opts : Options) (s : SwipeState) (e : PEvent),
        eventIsAllowed opts e = true → s.isPointerDown = true →
        (handleMove opts s e).fst.posEndX = e.clientX ∧
        (handleMove opts s e).fst.posEndY = e.clientY) ∧
    (∀ (opts : Options) (s : SwipeState) (e : PEvent),
        eventIsAllowed opts e = true → s.isPointerDown = true →
        (handleMove opts s e).fst.isSwiping
          = (s.isSwiping || isThresholdExceeded opts.threshold
              { s with posEndX := e.clientX, posEndY := e.clientY })) ∧
    (∀ (opts : Options) (s : SwipeState) (e : PEvent),
        eventIsAllowed opts e = true → s.isPointerDown = true →
        (handleMove opts s e).snd
          = (if (handleMove opts s e).fst.isSwiping
             then [Callback.swipe e] else [])) ∧
    (∀ (opts : Options) (s0 : SwipeState) (e0 : PEvent) (moves : List PEvent)
        (eu : PEvent),
        s0.listening = true → s0.isSwiping = false →
        eventIsAllowed opts e0 = true →
        (∀ e ∈ moves, eventIsAllowed opts e = true) →
        eventIsAllowed opts eu = true →
        (run opts s0
          (PointerInput.down e0 :: List.map PointerInput.move moves)).fst.isSwiping
          = true →
        ∃ mid d,
          (run opts s0
            (PointerInput.down e0 ::
              (List.map PointerInput.move moves ++ [PointerInput.up eu]))).snd
            = Callback.swipeStart e0 :: (mid ++ [Callback.swipeEnd eu d]) ∧
          mid ≠ [] ∧ ∀ c ∈ mid, isSwipe c = true) := by
  refine ⟨?_, ?_, ?_, ?_⟩
  · intro opts s e hA hP
    rw [handleMove_fst opts s e hA hP]
    exact ⟨rfl, rfl⟩
  · intro opts s e hA hP
    rw [handleMove_fst opts s e hA hP]
  · intro opts s e hA hP
    exact handleMove_snd opts s e hA hP
  · intro opts s0 e0 moves eu hL hs hA0 hAm hAu hflip
    have hd := dispatch_down opts s0 e0 hL
    have hde := handleDown_eq opts s0 e0 hA0
    have hL1 : (handleDown opts s0 e0).fst.listening = true := by
      rw [hde]; exact hL
    have hP1 : (handleDown opts s0 e0).fst.isPointerDown = true := by
      rw [hde]
    have hs1 : (handleDown opts s0 e0).fst.isSwiping = false := by
      rw [hde]; exact hs
    have M := run_moves_spec opts moves (handleDown opts s0 e0).fst hL1 hP1 hAm
    have hflip2 : (run opts (handleDown opts s0 e0).fst
        (List.map PointerInput.move moves)).fst.isSwiping = true := by
      rw [run_cons, hd] at hflip
      exact hflip
    have hmidne := M.2.2.2.2 hs1 hflip2
    have hup := dispatch_up opts
      (run opts (handleDown opts s0 e0).fst
        (List.map PointerInput.move moves)).fst eu M.1
    have hupeq := handleUp_eq opts
      (run opts (handleDown opts s0 e0).fst
        (List.map PointerInput.move moves)).fst eu hAu
    have hsnd0 := handleDown_snd opts s0 e0 hA0
    refine ⟨(run opts (handleDown opts s0 e0).fst
        (List.map PointerInput.move moves)).snd,
      direction opts.threshold
        (run opts (handleDown opts s0 e0).fst
          (List.map PointerInput.move moves)).fst,
      ?_, hmidne, M.2.2.1⟩
    rw [run_cons, hd, run_append]
    simp [run, hup, hupeq, hflip2, hsnd0]

/-- Witness for C4: the gesture down-at-(0,0), move-to-(60,0), up produces
`onSwipeStart`, then at least one `onSwipe`, then `onSwipeEnd`, in order. -/
theorem pointermove_gesture_spec_witness :
    ∃ mid d,
      (run { threshold := 50, pointerTypes := none } initialState
        (PointerInput.down
            { clientX := 0, clientY := 0, buttons := 1, pointerType := "mouse" } ::
          (List.map PointerInput.move
              [{ clientX := 60, clientY := 0, buttons := 1, pointerType := "mouse" }] ++
            [PointerInput.up
              { clientX := 60, clientY := 0, buttons := 0, pointerType := "mouse" }]))).snd
        = Callback.swipeStart
            { clientX := 0, clientY := 0, buttons := 1, pointerType := "mouse" } ::
          (mid ++ [Callback.swipeEnd
            { clientX := 60, clientY := 0, buttons := 0, pointerType := "mouse" } d]) ∧
      mid ≠ [] ∧ ∀ c ∈ mid, isSwipe c = true :=
  pointermove_gesture_spec.2.2.2 { threshold := 50, pointerTypes := none }
    initialState
    { clientX := 0, clientY := 0, buttons := 1, pointerType := "mouse" }
    [{ clientX := 60, clientY := 0, buttons := 1, pointerType := "mouse" }]
    { clientX := 60, clientY := 0, buttons := 0, pointerType := "mouse" }
    rfl rfl (by decide) (by decide) (by decide) (by decide)

end PointerSwipe
